import Mathlib

/-!
Verification of the wikiserv transformation-cache engine.

This file gives a shallow embedding of the core data structures and
algorithms of the repository (cache.py, search.py, server.py, worker.py)
and proves or refutes the frozen specification claims about them.

Modelling conventions:
* bytes are natural numbers below 256, byte strings are `List Nat`;
* `datetime` values are modelled by their offset from the Unix epoch in
  microseconds, as an `Int` (the source stores exactly this information:
  integral seconds plus a microsecond field);
* fallible Python code returns `Except PyErr`; each constructor of
  `PyErr` names the Python exception class the source raises;
* file-system state relevant to a single cache key is passed explicitly.
-/

/-- Python exception classes that appear in the modelled code paths. -/
inductive PyErr where
  | valueError
  | ioError
  | typeError
  | structError
  | nameError
  | osError
  deriving DecidableEq, Repr

deriving instance DecidableEq for Except

/-! ## EntryHeader (cache.py lines 34-82)

The on-disk header of a cache entry: `size` (u32), `cached` flag,
`timestamp` (modelled as epoch-microseconds), `checksum` (byte string).
-/

structure EntryHeader where
  size : Nat
  cached : Bool
  timestamp : Int
  checksum : List Nat
  deriving DecidableEq, Repr

/-- Embedding of `EntryHeader.__eq__` (cache.py lines 45-51): two headers
compare equal only when BOTH have `cached` set and the size, timestamp and
checksum fields agree.  Two `cached=false` headers are never equal. -/
def pyHdrEq (a b : EntryHeader) : Bool :=
  a.cached && b.cached &&
    (a.size == b.size && a.timestamp == b.timestamp && a.checksum == b.checksum)

theorem pyHdrEq_self (h : EntryHeader) : pyHdrEq h h = h.cached := by
  simp [pyHdrEq]

/-! ## Worker RWAdapter (worker.py lines 166-194)

The underlying pipe stream: `read(None)` or `read()` returns everything
remaining, `read(n)` returns at most `n` bytes.
-/

/-- A Python binary stream `read` call: argument `none` models calling
`read()` or `read(None)` (drain everything), `some n` models `read(n)`. -/
def streamRead (buf : List Nat) (arg : Option Nat) : List Nat :=
  match arg with
  | none => buf
  | some n => buf.take n

/-- Embedding of `RWAdapter.read` (worker.py lines 180-184).  The source
reads: `if length is None: return self.__read.read(length)` (passing the
`None` through) `else: return self.__read.read()` (passing NO argument),
so the requested length is never handed to the underlying stream. -/
def rwAdapterRead (buf : List Nat) (length : Option Nat) : List Nat :=
  match length with
  | none => streamRead buf length
  | some _ => streamRead buf none

/-! ## max_entries validation (cache.py lines 267-270, search.py 110-113) -/

/-- Embedding of the `max_entries` option check in `Cache.__init__`
(cache.py lines 267-270): a non-null value below 2 raises `ValueError`. -/
def cacheValidateMaxEntries (maxEntries : Option Int) : Except PyErr (Option Int) :=
  match maxEntries with
  | none => .ok none
  | some m => if m < 2 then .error .valueError else .ok (some m)

/-- Embedding of the identical `max_entries` check in
`BaseSearchCache.__init__` (search.py lines 110-113). -/
def searchValidateMaxEntries (maxEntries : Option Int) : Except PyErr (Option Int) :=
  match maxEntries with
  | none => .ok none
  | some m => if m < 2 then .error .valueError else .ok (some m)

/-! ## Claim theorems (first group) -/

/-- C10: for every pipe buffer and every non-null length argument,
`RWAdapter.read(length)` returns ALL bytes remaining in the pipe rather
than at most `length` bytes (the two branches of `read` are swapped and
the requested length is never passed to the underlying stream); in
particular a caller asking for 1 byte of a 3-byte buffer receives 3. -/
theorem rwadapter_read_returns_all :
    (∀ (buf : List Nat) (n : Nat), rwAdapterRead buf (some n) = buf) ∧
    (rwAdapterRead [1, 2, 3] (some 1)).length > 1 ∧
    streamRead [1, 2, 3] (some 1) = [1] := by
  refine ⟨fun buf n => rfl, by decide, by decide⟩

/-- C9: constructing a `Cache` or a `BaseSearchCache` with a non-null
`max_entries` below 2 raises `ValueError`; `max_entries = null` and
values at least 2 are accepted unchanged, so a capacity of exactly one
entry is not expressible. -/
theorem max_entries_validation (m : Int) :
    (m < 2 →
      cacheValidateMaxEntries (some m) = .error .valueError ∧
      searchValidateMaxEntries (some m) = .error .valueError) ∧
    (2 ≤ m →
      cacheValidateMaxEntries (some m) = .ok (some m) ∧
      searchValidateMaxEntries (some m) = .ok (some m)) ∧
    cacheValidateMaxEntries none = .ok none ∧
    searchValidateMaxEntries none = .ok none := by
  refine ⟨fun hm => ?_, fun hm => ?_, rfl, rfl⟩
  · simp [cacheValidateMaxEntries, searchValidateMaxEntries, hm]
  · simp [cacheValidateMaxEntries, searchValidateMaxEntries, not_lt.mpr hm]

/-- Witness for `max_entries_validation`: a capacity of 1 is rejected by
both constructors while 2 is accepted. -/
theorem max_entries_validation_witness :
    cacheValidateMaxEntries (some 1) = .error .valueError ∧
    searchValidateMaxEntries (some 2) = .ok (some 2) :=
  ⟨(max_entries_validation 1).1 (by decide) |>.1,
   ((max_entries_validation 2).2.1 (by decide)).2⟩

/-! ## EntryHeader byte codec (cache.py lines 36-82)

The header layout is `struct` format `!I?QIH` preceded by the 4-byte
magic: u32 size, u8 bool, u64 seconds (UNSIGNED in the format string),
u32 microseconds, u16 checksum length, all big-endian, followed by the
checksum bytes.  `minsize = 4 + 19 = 23`.
-/

/-- Big-endian encoding of `n` on `k` bytes, as `struct.pack` produces
for the fixed-width unsigned fields. -/
def packBE : Nat → Nat → List Nat
  | 0, _ => []
  | k + 1, n => packBE k (n / 256) ++ [n % 256]

/-- Big-endian decoding, as `struct.unpack` performs. -/
def unpackBE (l : List Nat) : Nat := l.foldl (fun a b => a * 256 + b) 0

/-- Consume `k` bytes from the front of a stream and decode them. -/
def readBE (k : Nat) (l : List Nat) : Nat × List Nat :=
  (unpackBE (l.take k), l.drop k)

/-- The magic constant `b'\xCA\xCE01'` (cache.py line 36). -/
def magicBytes : List Nat := [0xCA, 0xCE, 0x30, 0x31]

/-- Embedding of `EntryHeader.datetime2fp` (cache.py lines 52-57) on a
datetime given as epoch-microseconds `u`.  `int(dt.timestamp())` is the
truncation toward zero of the real number `u / 10^6` (`Int.tdiv` is
t-division); `dt.microsecond` is the floor-remainder `u emod 10^6`. -/
def datetime2fp (u : Int) : Int × Int :=
  (if Int.tdiv u 1000000 < 0 then Int.tdiv u 1000000 - 1 else Int.tdiv u 1000000,
    Int.emod u 1000000)

/-- Embedding of `EntryHeader.fp2datetime` (cache.py lines 58-60):
`datetime.utcfromtimestamp(s).replace(microsecond = ms)` is the datetime
at epoch-microseconds `s * 10^6 + ms` (the seconds value fixes every
field above microseconds, and `replace` overwrites the microseconds). -/
def fp2datetime (s : Int) (ms : Int) : Int := s * 1000000 + ms

/-- Embedding of `EntryHeader.write` (cache.py lines 61-66), producing
the byte string written to the stream.  `struct.pack` with the UNSIGNED
format `Q` raises `struct.error` when the seconds value is negative (or
does not fit in 64 bits), so pre-epoch timestamps cannot be written. -/
def EntryHeader.writeBytes (h : EntryHeader) : Except PyErr (List Nat) :=
  if (datetime2fp h.timestamp).1 < 0 ∨
      (18446744073709551616 : Int) ≤ (datetime2fp h.timestamp).1 then
    .error .structError
  else
    .ok (magicBytes ++ (packBE 4 h.size ++ ([if h.cached then 1 else 0] ++
      (packBE 8 (datetime2fp h.timestamp).1.toNat ++
      (packBE 4 (datetime2fp h.timestamp).2.toNat ++
      (packBE 2 h.checksum.length ++ h.checksum))))))

/-- Embedding of `EntryHeader.read` (cache.py lines 67-82) applied to a
byte string.  Mirrors the source order: magic check (`ValueError`), then
`struct.unpack` of the 19 fixed bytes (`struct.error` is re-raised as
`IOError` when the buffer is short), then `fp2datetime` (whose
`replace(microsecond = ms)` raises `ValueError` for `ms` of at least
10^6), then the checksum: a zero `cksum_len` leaves `checksum = None`
and `len(None)` raises `TypeError`; a short checksum raises
`ValueError`; finally the `EntryHeader` constructor validity checks
(cache.py lines 40-43). -/
def EntryHeader.readBytes (bytes : List Nat) : Except PyErr EntryHeader :=
  if bytes.take 4 ≠ magicBytes then .error .valueError
  else if bytes.length < 23 then .error .ioError
  else
    match readBE 4 (bytes.drop 4) with
    | (size, r1) =>
      match readBE 1 r1 with
      | (cachedByte, r2) =>
        match readBE 8 r2 with
        | (s, r3) =>
          match readBE 4 r3 with
          | (ms, r4) =>
            match readBE 2 r4 with
            | (cksumLen, r5) =>
              if (1000000 : Nat) ≤ ms then .error .valueError
              else if cksumLen = 0 then .error .typeError
              else if (r5.take cksumLen).length < cksumLen then .error .valueError
              else if size > 0xFFFFFFFF then .error .valueError
              else if (r5.take cksumLen).length > 0xFFFF then .error .valueError
              else .ok ⟨size, cachedByte != 0,
                fp2datetime (Int.ofNat s) (Int.ofNat ms), r5.take cksumLen⟩

/-! ## Codec round-trip lemmas -/

theorem take_len_append {α : Type} (l₁ l₂ : List α) :
    (l₁ ++ l₂).take l₁.length = l₁ := by
  induction l₁ with
  | nil => rfl
  | cons a t ih => simp [ih]

theorem drop_len_append {α : Type} (l₁ l₂ : List α) :
    (l₁ ++ l₂).drop l₁.length = l₂ := by
  induction l₁ with
  | nil => rfl
  | cons a t ih => simp [ih]

theorem packBE_length (k n : Nat) : (packBE k n).length = k := by
  induction k generalizing n with
  | zero => rfl
  | succ k ih => simp [packBE, ih]

theorem unpackBE_append_one (xs : List Nat) (b : Nat) :
    unpackBE (xs ++ [b]) = unpackBE xs * 256 + b := by
  simp [unpackBE, List.foldl_append]

theorem unpackBE_packBE (k n : Nat) (hn : n < 256 ^ k) :
    unpackBE (packBE k n) = n := by
  induction k generalizing n with
  | zero =>
    interval_cases n
    rfl
  | succ k ih =>
    have hdiv : n / 256 < 256 ^ k := by
      rw [Nat.div_lt_iff_lt_mul (by norm_num : 0 < 256)]
      calc n < 256 ^ (k + 1) := hn
        _ = 256 ^ k * 256 := by ring
    rw [packBE, unpackBE_append_one, ih _ hdiv]
    omega

theorem readBE_append (k n : Nat) (rest : List Nat) (hn : n < 256 ^ k) :
    readBE k (packBE k n ++ rest) = (n, rest) := by
  have ht := take_len_append (packBE k n) rest
  have hd := drop_len_append (packBE k n) rest
  rw [packBE_length] at ht hd
  unfold readBE
  rw [ht, hd, unpackBE_packBE k n hn]

theorem tdiv_ofNat (m n : Nat) :
    Int.tdiv (Int.ofNat m) (Int.ofNat n) = Int.ofNat (m / n) := rfl

theorem emod_ofNat (m n : Nat) :
    Int.emod (Int.ofNat m) (Int.ofNat n) = Int.ofNat (m % n) := rfl


/-! ## C2: header round-trip -/

/-- C2 counterexample: the header with timestamp one second before the
epoch (valid fields, `cached=true`) does NOT survive `read . write`:
`write` already fails with `struct.error`, because `datetime2fp` yields
seconds `-2` and the `!I?QIH` format packs seconds as UNSIGNED u64. -/
theorem header_roundtrip_fails_pre_epoch :
    (EntryHeader.writeBytes ⟨10, true, -1000000, [7]⟩).bind EntryHeader.readBytes
      ≠ .ok ⟨10, true, -1000000, [7]⟩ ∧
    EntryHeader.writeBytes ⟨10, true, -1000000, [7]⟩ = .error .structError := by
  constructor
  · decide
  · decide

theorem datetime2fp_ofNat (u : Nat) :
    datetime2fp (Int.ofNat u) =
      (Int.ofNat (u / 1000000), Int.ofNat (u % 1000000)) := by
  unfold datetime2fp
  rw [show (1000000 : Int) = Int.ofNat 1000000 from rfl, tdiv_ofNat, emod_ofNat,
    if_neg (show ¬ Int.ofNat (u / 1000000) < 0 from
      Int.not_lt.mpr (Int.ofNat_nonneg (u / 1000000)))]

set_option maxHeartbeats 1600000 in
/-- C2 (amended): for every `EntryHeader` with valid fields (size below
2^32, checksum length between 1 and 65535) whose timestamp is at or
after the epoch (with seconds fitting the u64 field), reading back the
bytes produced by `write` yields exactly the original header, with the
timestamp recovered to microsecond precision by the encode rule
`(S if S >= 0 else S-1, M)` and the decode rule
`utcfromtimestamp(S).replace(microsecond=M)`.  Pre-epoch timestamps are
excluded because for them `write` raises `struct.error` (the seconds
field is packed as unsigned u64), and an empty checksum is excluded
because `read` then raises `TypeError` on `len(None)`. -/
theorem header_roundtrip_nonneg (h : EntryHeader)
    (hsize : h.size ≤ 0xFFFFFFFF)
    (hck : h.checksum.length ≤ 0xFFFF)
    (hck1 : 1 ≤ h.checksum.length)
    (hts0 : 0 ≤ h.timestamp)
    (htsB : h.timestamp < 1000000 * 18446744073709551616) :
    (EntryHeader.writeBytes h).bind EntryHeader.readBytes = .ok h := by
  obtain ⟨u, hu⟩ := Int.eq_ofNat_of_zero_le hts0
  have hu' : h.timestamp = Int.ofNat u := hu
  have husmall : u < 18446744073709551616 * 1000000 := by
    rw [hu'] at htsB
    omega
  have hdivlt : u / 1000000 < 18446744073709551616 :=
    (Nat.div_lt_iff_lt_mul (by norm_num)).mpr husmall
  have hmodlt : u % 1000000 < 1000000 := Nat.mod_lt _ (by norm_num)
  have hsm : datetime2fp h.timestamp =
      (Int.ofNat (u / 1000000), Int.ofNat (u % 1000000)) := by
    rw [hu', datetime2fp_ofNat]
  have hc1 : ¬ ((Int.ofNat (u / 1000000) : Int) < 0 ∨
      (18446744073709551616 : Int) ≤ Int.ofNat (u / 1000000)) := by
    rw [Int.ofNat_eq_natCast]
    push_neg
    omega
  have hwrite : EntryHeader.writeBytes h =
      .ok (magicBytes ++ (packBE 4 h.size ++ ([if h.cached then 1 else 0] ++
        (packBE 8 (u / 1000000) ++ (packBE 4 (u % 1000000) ++
        (packBE 2 h.checksum.length ++ h.checksum)))))) := by
    unfold EntryHeader.writeBytes
    rw [hsm]
    dsimp only
    rw [if_neg hc1]
    rfl
  rw [hwrite]
  show EntryHeader.readBytes _ = .ok h
  have hmag4 : ∀ r : List Nat, (magicBytes ++ r).take 4 = magicBytes :=
    fun r => take_len_append magicBytes r
  have hmagd : ∀ r : List Nat, (magicBytes ++ r).drop 4 = r :=
    fun r => drop_len_append magicBytes r
  have hr4 : readBE 4 (packBE 4 h.size ++ ([if h.cached then 1 else 0] ++
      (packBE 8 (u / 1000000) ++ (packBE 4 (u % 1000000) ++
      (packBE 2 h.checksum.length ++ h.checksum))))) =
      (h.size, [if h.cached then 1 else 0] ++
        (packBE 8 (u / 1000000) ++ (packBE 4 (u % 1000000) ++
        (packBE 2 h.checksum.length ++ h.checksum)))) :=
    readBE_append 4 h.size _
      (by have : (256 : Nat) ^ 4 = 4294967296 := by norm_num
          omega)
  have hr1 : readBE 1 (([if h.cached then 1 else 0] : List Nat) ++
      (packBE 8 (u / 1000000) ++ (packBE 4 (u % 1000000) ++
      (packBE 2 h.checksum.length ++ h.checksum)))) =
      ((if h.cached then 1 else 0),
        packBE 8 (u / 1000000) ++ (packBE 4 (u % 1000000) ++
        (packBE 2 h.checksum.length ++ h.checksum))) := by
    cases h.cached <;> simp [readBE, unpackBE]
  have hr8 : readBE 8 (packBE 8 (u / 1000000) ++ (packBE 4 (u % 1000000) ++
      (packBE 2 h.checksum.length ++ h.checksum))) =
      (u / 1000000, packBE 4 (u % 1000000) ++
        (packBE 2 h.checksum.length ++ h.checksum)) :=
    readBE_append 8 (u / 1000000) _
      (by have : (256 : Nat) ^ 8 = 18446744073709551616 := by norm_num
          omega)
  have hrm : readBE 4 (packBE 4 (u % 1000000) ++
      (packBE 2 h.checksum.length ++ h.checksum)) =
      (u % 1000000, packBE 2 h.checksum.length ++ h.checksum) :=
    readBE_append 4 (u % 1000000) _
      (by have : (256 : Nat) ^ 4 = 4294967296 := by norm_num
          omega)
  have hr2 : readBE 2 (packBE 2 h.checksum.length ++ h.checksum) =
      (h.checksum.length, h.checksum) :=
    readBE_append 2 h.checksum.length _
      (by have : (256 : Nat) ^ 2 = 65536 := by norm_num
          omega)
  have hlen : (magicBytes ++ (packBE 4 h.size ++ ([if h.cached then 1 else 0] ++
      (packBE 8 (u / 1000000) ++ (packBE 4 (u % 1000000) ++
      (packBE 2 h.checksum.length ++ h.checksum)))))).length =
      23 + h.checksum.length := by
    simp [magicBytes, packBE_length]
    omega
  unfold EntryHeader.readBytes
  rw [hmag4, hmagd]
  rw [if_neg (by simp), if_neg (by rw [hlen]; omega)]
  simp only [hr4, hr1, hr8, hrm, hr2]
  rw [if_neg (by omega), if_neg (by omega), List.take_length]
  rw [if_neg (by omega), if_neg (by omega), if_neg (by omega)]
  have hts : fp2datetime (Int.ofNat (u / 1000000)) (Int.ofNat (u % 1000000)) =
      h.timestamp := by
    unfold fp2datetime
    rw [hu']
    have hdm := Nat.div_add_mod u 1000000
    rw [show (1000000 : Int) = Int.ofNat 1000000 from rfl]
    rw [show Int.ofNat (u / 1000000) * Int.ofNat 1000000 =
      Int.ofNat (u / 1000000 * 1000000) from rfl]
    rw [show (Int.ofNat (u / 1000000 * 1000000) + Int.ofNat (u % 1000000) : Int) =
      Int.ofNat (u / 1000000 * 1000000 + u % 1000000) from rfl]
    congr 1
    omega
  rw [hts]
  have hcb : ((if h.cached then (1 : Nat) else 0) != 0) = h.cached := by
    cases h.cached <;> rfl
  rw [hcb]

/-- Witness for `header_roundtrip_nonneg` at a concrete header. -/
theorem header_roundtrip_nonneg_witness :
    (EntryHeader.writeBytes ⟨3, true, 1500000, [9]⟩).bind EntryHeader.readBytes
      = .ok ⟨3, true, 1500000, [9]⟩ :=
  header_roundtrip_nonneg ⟨3, true, 1500000, [9]⟩ (by decide) (by decide)
    (by decide) (by decide) (by decide)

/-! ## Cache lookup (cache.py lines 287-365)

The state relevant to one cache key is the cache file for that key
together with the source file it mirrors.  Locking is sequentialized
away (this model is the single-threaded semantics); `known_entry_count`
bookkeeping is not needed by the claims and is omitted.  A transformer
that fails in the model fails before writing payload bytes, so a
half-written payload is modelled as the empty payload after the header
rewrite that `entry.header = new_header` performs.
-/

/-- Python `part.startswith(".")` for a one-character pattern: true
exactly when the first character is a dot.  (Defined on `String.data` so
that concrete instances reduce inside the kernel.) -/
def pyStartsWithDot (s : String) : Bool :=
  match s.data with
  | [] => false
  | c :: _ => c = '.'

/-- Python `fname.endswith(extension)`: the pattern is a suffix of the
string. -/
def pyEndsWith (s sfx : String) : Bool := sfx.data.isSuffixOf s.data

/-- A source file as `LockedFile` exposes it: `size`, `modified`
(epoch-microseconds) and content bytes; the checksum is computed from
the content by the cache's checksum function. -/
structure SourceFile where
  size : Nat
  modified : Int
  content : List Nat
  deriving DecidableEq, Repr

/-- What one cache key's file looks like on disk: missing, existing but
without a valid header (`Entry` marks it inactive), or a well-formed
entry with its parsed header and payload bytes. -/
inductive CacheFile where
  | absent
  | inactive
  | entry (h : EntryHeader) (payload : List Nat)
  deriving DecidableEq, Repr

/-- Result of one call of a transformer `filter_function(inf, outf,
cached)`: normal output bytes written to `outf`, or one of the
exceptions the cache handles (`NoCache`, `NotImplementedError`), or any
other exception tagged with whether it is an `IOError`. -/
inductive TransformResult where
  | normal (out : List Nat)
  | noCache
  | notImpl
  | raised (isIOError : Bool) (e : Nat)
  deriving DecidableEq, Repr

/-- What `Cache.__get_entry` hands back: an `Entry` (header, payload and
stream position relative to the payload start) or an `AutoProcess`
handle capturing the tombstone header. -/
inductive LookupResult where
  | entryRes (h : EntryHeader) (payload : List Nat) (pos : Nat)
  | autoProcess (h : EntryHeader)
  deriving DecidableEq, Repr

/-- Outcome of a lookup: a result, a `KeyError` (the key-miss surfaced
to the caller), a propagated Python exception raised by the cache
machinery itself (`ValueError`, `TypeError` from re-parsing an
empty-checksum header, `struct.error` from writing a pre-epoch header),
or a propagated transformer exception `e`. -/
inductive Outcome where
  | ok (r : LookupResult)
  | keyError
  | pyExc (e : PyErr)
  | exc (e : Nat)
  deriving DecidableEq, Repr

/-- The header `Cache.__get_entry` builds from the locked original
(cache.py line 319): `EntryHeader(original.size, True, original.modified,
original.checksum(self.__checksum_function))`. -/
def mkHeader (o : SourceFile) (cksum : List Nat → List Nat) : EntryHeader :=
  ⟨o.size, true, o.modified, cksum o.content⟩

/-- The tombstone header written when the transformer raises `NoCache`
or when a stale tombstone is refreshed (cache.py lines 324 and 335):
same fields as the fresh header but with `cached=False`. -/
def tombstoneOf (o : SourceFile) (cksum : List Nat → List Nat) : EntryHeader :=
  ⟨o.size, false, o.modified, cksum o.content⟩

/-- Whether the `Entry.header` setter (cache.py lines 132-143) raises:
after seeking and truncating it calls `EntryHeader.write`, which raises
`struct.error` exactly when `writeBytes` errors — i.e. for a pre-epoch
timestamp, whose seconds value the UNSIGNED `Q` field cannot pack.
`struct.error` is neither `NoCache`, `NotImplementedError` nor
`IOError`, so in `Cache.__get_entry` it reaches the bare `except`
handler, which removes the cache file and re-raises. -/
def entrySetHeaderFails (h : EntryHeader) : Bool :=
  match h.writeBytes with
  | .error _ => true
  | .ok _ => false

/-- Whether constructing `Entry` on the cache file raises: re-parsing a
stored header whose checksum is empty makes `EntryHeader.read` raise
`TypeError` on `len(None)` (cache.py lines 77-80), which
`Entry.__init__` (catching only `ValueError`) does not absorb; the raise
happens before `entry` is assigned, so the bare `except` handler finds
`entry is None` and re-raises without removing the file. -/
def entryParseRaisesTypeError : CacheFile → Bool
  | .entry h _ => h.checksum.length == 0
  | _ => false

/-- Embedding of the transformer-invoking part of `Cache.__get_entry`
(cache.py lines 327-349): `entry.header = new_header` runs first (line
330) and raises `struct.error` for a pre-epoch source mtime BEFORE the
transformer is invoked (the bare `except` then removes the file and
re-raises); otherwise the transformer runs with `cached=True` and the
`NoCache` / `NotImplementedError` / `IOError` / other-exception handlers
(lines 332-344 and 350-365) decide result and final file state — the
header writes inside the `NoCache` and `NotImplementedError` handlers
(lines 335 and 344) can raise the same `struct.error`.  The third
component counts transformer invocations. -/
def runTransformer (o : SourceFile) (cksum : List Nat → List Nat)
    (filt : List Nat → Bool → TransformResult) :
    Outcome × CacheFile × Nat :=
  let nh := mkHeader o cksum
  if entrySetHeaderFails nh then (.pyExc .structError, .absent, 0)
  else
    match filt o.content true with
    | .normal out => (.ok (.entryRes nh out 0), .entry nh out, 1)
    | .noCache =>
        if entrySetHeaderFails (tombstoneOf o cksum) then
          (.pyExc .structError, .absent, 1)
        else
          (.ok (.autoProcess (tombstoneOf o cksum)),
            .entry (tombstoneOf o cksum) [], 1)
    | .notImpl =>
        if entrySetHeaderFails nh then (.pyExc .structError, .absent, 1)
        else (.ok (.entryRes nh [] 0), .entry nh [], 1)
    | .raised true _ => (.keyError, .entry nh [], 1)
    | .raised false e => (.exc e, .absent, 1)

/-- Embedding of `Cache.__get_entry` (cache.py lines 287-365) for one
key.  Arguments: the path split into components; the source file for the
key (`none` when the original is missing, which makes the `LockedFile`
open raise `IOError`); whether opening the cache file itself raises
`IOError` (both the `r+b` and the `w+b` open fail, e.g. permissions);
the checksum function; the transformer; the current cache file state.
The `Entry` construction on the opened handle (line 316) precedes the
`new_header` constructor checks (line 319), so re-parsing a stored
empty-checksum header raises `TypeError` first; a header rewrite in the
tombstone branch (line 324) raises `struct.error` for a pre-epoch
source mtime and the bare `except` then removes the file.  Returns the
outcome, the new cache file state, and the number of transformer
invocations performed inside the call. -/
def getEntry (path : List String) (src : Option SourceFile)
    (cacheOpenFails : Bool) (cksum : List Nat → List Nat)
    (filt : List Nat → Bool → TransformResult) (cf : CacheFile) :
    Outcome × CacheFile × Nat :=
  if path.any (fun part => pyStartsWithDot part) then (.pyExc .valueError, cf, 0)
  else
    match src with
    | none => (.keyError, cf, 0)
    | some o =>
      if cacheOpenFails then (.keyError, cf, 0)
      else if entryParseRaisesTypeError cf then (.pyExc .typeError, cf, 0)
      else if o.size > 0xFFFFFFFF ∨ (cksum o.content).length > 0xFFFF then
        (.pyExc .valueError, .absent, 0)
      else
        match cf with
        | .entry h payload =>
          if h.cached = false then
            if pyHdrEq h (mkHeader o cksum) then
              (.ok (.autoProcess h), .entry h payload, 0)
            else if entrySetHeaderFails (tombstoneOf o cksum) then
              (.pyExc .structError, .absent, 0)
            else
              (.ok (.autoProcess (tombstoneOf o cksum)),
                .entry (tombstoneOf o cksum) [], 0)
          else if pyHdrEq h (mkHeader o cksum) then
            (.ok (.entryRes h payload 0), .entry h payload, 0)
          else
            runTransformer o cksum filt
        | _ => runTransformer o cksum filt

/-- Embedding of `AutoProcess.__call__` (cache.py lines 202-205): the
handle re-opens the original under a shared lock and re-runs the
transformer with `cached=False`; the second component records that the
transformer was invoked exactly once. -/
def runAutoProcess (o : SourceFile)
    (filt : List Nat → Bool → TransformResult) : TransformResult × Nat :=
  (filt o.content false, 1)

/-- The header write succeeds whenever the timestamp is at or after the
epoch and its seconds value fits the u64 field. -/
theorem entrySetHeaderFails_false (h : EntryHeader)
    (h0 : 0 ≤ h.timestamp)
    (hB : h.timestamp < 1000000 * 18446744073709551616) :
    entrySetHeaderFails h = false := by
  obtain ⟨u, hu⟩ := Int.eq_ofNat_of_zero_le h0
  have hu' : h.timestamp = Int.ofNat u := hu
  have husmall : u < 18446744073709551616 * 1000000 := by
    rw [hu'] at hB
    omega
  have hdivlt : u / 1000000 < 18446744073709551616 :=
    (Nat.div_lt_iff_lt_mul (by norm_num)).mpr husmall
  have hc1 : ¬ ((Int.ofNat (u / 1000000) : Int) < 0 ∨
      (18446744073709551616 : Int) ≤ Int.ofNat (u / 1000000)) := by
    rw [Int.ofNat_eq_natCast]
    push_neg
    omega
  unfold entrySetHeaderFails EntryHeader.writeBytes
  rw [hu', datetime2fp_ofNat]
  dsimp only
  rw [if_neg hc1]

/-! ## C1: cache determinism -/

/-- C1 counterexample: the claimed miss-then-hit discipline fails on the
real code for two expressible inputs.  (a) A source file whose mtime is
one second before the epoch: the first lookup raises `struct.error` at
`entry.header = new_header` (cache.py line 330, via the unsigned u64
seconds field) BEFORE the transformer runs, and the bare `except`
removes the cache file — no payload bytes are ever produced and the
transformer is invoked zero times, not once.  (b) A checksum function
returning the empty digest: the first lookup caches normally, but the
second lookup raises `TypeError` while re-parsing the stored
empty-checksum header instead of being a hit. -/
theorem cache_lookup_pre_epoch_raises :
    getEntry ["a.txt"] (some ⟨3, -1000000, [1, 2, 3]⟩) false id
        (fun c _ => .normal (0 :: c)) .absent =
      (.pyExc .structError, .absent, 0) ∧
    getEntry ["a.txt"] (some ⟨3, 5, [1, 2, 3]⟩) false (fun _ => [])
        (fun c _ => .normal (0 :: c))
        (.entry (mkHeader ⟨3, 5, [1, 2, 3]⟩ (fun _ => [])) [0, 1, 2, 3]) =
      (.pyExc .typeError,
        .entry (mkHeader ⟨3, 5, [1, 2, 3]⟩ (fun _ => [])) [0, 1, 2, 3], 0) := by
  refine ⟨by decide, by decide⟩

/-- C1 (amended): for a path whose source file exists (and is unchanged
between the calls), whose mtime is at or after the epoch (pre-epoch
mtimes make the header write raise `struct.error` before the transformer
runs), with a checksum function producing a nonempty digest (an empty
digest makes the second lookup raise `TypeError` while re-parsing the
stored header), and a transformer that deterministically writes `out`:
two successive lookups starting from an empty cache produce identical
payload bytes and invoke the transformer exactly once, on the first call
only; the second call is a hit returning the stored entry positioned at
the payload start (relative position 0). -/
theorem cache_lookup_deterministic (path : List String) (o : SourceFile)
    (cksum : List Nat → List Nat) (filt : List Nat → Bool → TransformResult)
    (out : List Nat)
    (hpath : path.any (fun part => pyStartsWithDot part) = false)
    (hsize : o.size ≤ 0xFFFFFFFF)
    (hcklen : (cksum o.content).length ≤ 0xFFFF)
    (hck1 : 1 ≤ (cksum o.content).length)
    (hts0 : 0 ≤ o.modified)
    (htsB : o.modified < 1000000 * 18446744073709551616)
    (hfilt : filt o.content true = .normal out) :
    getEntry path (some o) false cksum filt .absent =
      (.ok (.entryRes (mkHeader o cksum) out 0), .entry (mkHeader o cksum) out, 1) ∧
    getEntry path (some o) false cksum filt (.entry (mkHeader o cksum) out) =
      (.ok (.entryRes (mkHeader o cksum) out 0), .entry (mkHeader o cksum) out, 0) := by
  have hvalid : ¬ (o.size > 0xFFFFFFFF ∨ (cksum o.content).length > 0xFFFF) := by
    omega
  have hw : entrySetHeaderFails (mkHeader o cksum) = false :=
    entrySetHeaderFails_false (mkHeader o cksum) hts0 htsB
  have hpe : (cksum o.content).length ≠ 0 := by omega
  constructor
  · simp [getEntry, hpath, hvalid, runTransformer, hfilt, hw,
      entryParseRaisesTypeError]
  · simp [getEntry, hpath, hvalid, pyHdrEq_self, mkHeader,
      entryParseRaisesTypeError, hpe]

/-- Witness for `cache_lookup_deterministic` at a concrete source file
and transformer. -/
theorem cache_lookup_deterministic_witness :
    getEntry ["a.txt"] (some ⟨3, 5, [1, 2, 3]⟩) false id
        (fun c _ => .normal (0 :: c)) .absent =
      (.ok (.entryRes (mkHeader ⟨3, 5, [1, 2, 3]⟩ id) [0, 1, 2, 3] 0),
        .entry (mkHeader ⟨3, 5, [1, 2, 3]⟩ id) [0, 1, 2, 3], 1) ∧
    getEntry ["a.txt"] (some ⟨3, 5, [1, 2, 3]⟩) false id
        (fun c _ => .normal (0 :: c))
        (.entry (mkHeader ⟨3, 5, [1, 2, 3]⟩ id) [0, 1, 2, 3]) =
      (.ok (.entryRes (mkHeader ⟨3, 5, [1, 2, 3]⟩ id) [0, 1, 2, 3] 0),
        .entry (mkHeader ⟨3, 5, [1, 2, 3]⟩ id) [0, 1, 2, 3], 0) :=
  cache_lookup_deterministic ["a.txt"] ⟨3, 5, [1, 2, 3]⟩ id
    (fun c _ => .normal (0 :: c)) [0, 1, 2, 3]
    (by decide) (by decide) (by decide) (by decide) (by decide) (by decide) rfl

/-! ## C3: NoCache passthrough -/

/-- Cache file state for one key after `n` lookups, starting from an
absent file (each lookup threads the state of the previous one). -/
def lookupStateN (path : List String) (src : Option SourceFile)
    (cksum : List Nat → List Nat) (filt : List Nat → Bool → TransformResult) :
    Nat → CacheFile
  | 0 => .absent
  | n + 1 => (getEntry path src false cksum filt
      (lookupStateN path src cksum filt n)).2.1

/-- Outcome of the `(n+1)`-st lookup (the one performed on the state
after `n` lookups). -/
def lookupOutcomeN (path : List String) (src : Option SourceFile)
    (cksum : List Nat → List Nat) (filt : List Nat → Bool → TransformResult)
    (n : Nat) : Outcome :=
  (getEntry path src false cksum filt (lookupStateN path src cksum filt n)).1

/-- C3 counterexample: a source file whose mtime is one second before
the epoch refutes the claim: the first lookup raises `struct.error` at
the header write (cache.py line 330) before the always-NoCache
transformer is ever invoked, and the bare `except` removes the cache
file — so there is NO cache file, no tombstone, and no `AutoProcess`
handle. -/
theorem nocache_pre_epoch_raises :
    getEntry ["b.bin"] (some ⟨2, -1000000, [9, 9]⟩) false id
        (fun _ _ => .noCache) .absent = (.pyExc .structError, .absent, 0) := by
  decide

/-- C3 (amended): if the transformer always raises `NoCache`, the
source mtime is at or after the epoch (pre-epoch mtimes make the first
lookup raise `struct.error` before the transformer runs and leave no
cache file) and the checksum digest is nonempty (so the stored tombstone
can be re-parsed), then after any positive number of lookups of one
source path the cache holds exactly one file for it, whose stored header
is the `cached=false` tombstone; every lookup (first and later ones
alike) returns an `AutoProcess` handle carrying that tombstone, and
invoking the handle runs the transformer (once per request), so the
transformer is executed on every request instead of being served from
cache. -/
theorem nocache_tombstone_passthrough (path : List String) (o : SourceFile)
    (cksum : List Nat → List Nat) (filt : List Nat → Bool → TransformResult)
    (hpath : path.any (fun part => pyStartsWithDot part) = false)
    (hsize : o.size ≤ 0xFFFFFFFF)
    (hcklen : (cksum o.content).length ≤ 0xFFFF)
    (hck1 : 1 ≤ (cksum o.content).length)
    (hts0 : 0 ≤ o.modified)
    (htsB : o.modified < 1000000 * 18446744073709551616)
    (hfilt : ∀ c b, filt c b = .noCache) :
    (∀ n, 1 ≤ n → lookupStateN path (some o) cksum filt n =
      .entry (tombstoneOf o cksum) []) ∧
    (∀ n, lookupOutcomeN path (some o) cksum filt n =
      .ok (.autoProcess (tombstoneOf o cksum))) ∧
    (tombstoneOf o cksum).cached = false ∧
    (runAutoProcess o filt).1 = .noCache ∧
    (runAutoProcess o filt).2 = 1 := by
  have hvalid : ¬ (o.size > 0xFFFFFFFF ∨ (cksum o.content).length > 0xFFFF) := by
    omega
  have hw : entrySetHeaderFails (mkHeader o cksum) = false :=
    entrySetHeaderFails_false (mkHeader o cksum) hts0 htsB
  have hwT : entrySetHeaderFails (tombstoneOf o cksum) = false :=
    entrySetHeaderFails_false (tombstoneOf o cksum) hts0 htsB
  have hpe : (cksum o.content).length ≠ 0 := by omega
  have stepA : getEntry path (some o) false cksum filt .absent =
      (.ok (.autoProcess (tombstoneOf o cksum)),
        .entry (tombstoneOf o cksum) [], 1) := by
    simp [getEntry, hpath, hvalid, runTransformer, hfilt, hw, hwT,
      entryParseRaisesTypeError]
  have stepT : getEntry path (some o) false cksum filt
      (.entry (tombstoneOf o cksum) []) =
      (.ok (.autoProcess (tombstoneOf o cksum)),
        .entry (tombstoneOf o cksum) [], 0) := by
    have hwT2 : entrySetHeaderFails
        ⟨o.size, false, o.modified, cksum o.content⟩ = false := hwT
    simp [getEntry, hpath, hvalid, hwT, hwT2, entryParseRaisesTypeError, hpe,
      tombstoneOf, pyHdrEq, mkHeader]
  have hstate : ∀ n, 1 ≤ n → lookupStateN path (some o) cksum filt n =
      .entry (tombstoneOf o cksum) [] := by
    intro n hn
    induction n with
    | zero => omega
    | succ k ih =>
      cases k with
      | zero =>
        show (getEntry path (some o) false cksum filt
          (lookupStateN path (some o) cksum filt 0)).2.1 = _
        rw [show lookupStateN path (some o) cksum filt 0 = .absent from rfl,
          stepA]
      | succ j =>
        show (getEntry path (some o) false cksum filt
          (lookupStateN path (some o) cksum filt (j + 1))).2.1 = _
        rw [ih (by omega), stepT]
  refine ⟨hstate, fun n => ?_, rfl, by simp [runAutoProcess, hfilt], rfl⟩
  cases n with
  | zero =>
    show (getEntry path (some o) false cksum filt
      (lookupStateN path (some o) cksum filt 0)).1 = _
    rw [show lookupStateN path (some o) cksum filt 0 = .absent from rfl, stepA]
  | succ k =>
    show (getEntry path (some o) false cksum filt
      (lookupStateN path (some o) cksum filt (k + 1))).1 = _
    rw [hstate (k + 1) (by omega), stepT]

/-- Witness for `nocache_tombstone_passthrough`: concrete source file
and always-NoCache transformer, checked after two lookups. -/
theorem nocache_tombstone_passthrough_witness :
    lookupStateN ["b.bin"] (some ⟨2, 7, [9, 9]⟩) id (fun _ _ => .noCache) 2 =
      .entry (tombstoneOf ⟨2, 7, [9, 9]⟩ id) [] ∧
    lookupOutcomeN ["b.bin"] (some ⟨2, 7, [9, 9]⟩) id (fun _ _ => .noCache) 1 =
      .ok (.autoProcess (tombstoneOf ⟨2, 7, [9, 9]⟩ id)) :=
  ⟨(nocache_tombstone_passthrough ["b.bin"] ⟨2, 7, [9, 9]⟩ id
      (fun _ _ => .noCache) (by decide) (by decide) (by decide) (by decide)
      (by decide) (by decide) (fun _ _ => rfl)).1 2 (by decide),
   (nocache_tombstone_passthrough ["b.bin"] ⟨2, 7, [9, 9]⟩ id
      (fun _ _ => .noCache) (by decide) (by decide) (by decide) (by decide)
      (by decide) (by decide) (fun _ _ => rfl)).2.1 1⟩

/-! ## C5: which I/O failures surface as a key-miss -/

/-- C5 counterexample: the source file EXISTS, but opening the cache
file raises `IOError` (e.g. a permission failure) and the lookup still
surfaces a `KeyError` key-miss, because the `except IOError` handler in
`Cache.__get_entry` (cache.py lines 350-357) wraps the whole body, not
just the source-file open.  So a missing source is NOT the only I/O
failure surfaced as a key-miss. -/
theorem keyerror_not_only_missing_source :
    getEntry ["a.txt"] (some ⟨1, 0, [1]⟩) true id
        (fun c _ => .normal c) .absent = (.keyError, .absent, 0) := by
  decide

/-- C5 (amended): every `IOError` raised during the lookup body is
surfaced to the caller as a `KeyError` key-miss: a missing source file,
a failure to open the cache file, and an `IOError` raised by the
transformer all yield `KeyError`; only non-IOError exceptions propagate
to the caller as the original error (after the half-written cache file
is removed by the bare `except` handler, cache.py lines 358-365).  The
transformer cases presuppose an epoch-or-later source mtime, since for a
pre-epoch mtime the header write at cache.py line 330 raises
`struct.error` before the transformer is invoked — that error is itself
an example of a propagating non-IOError failure, covered by the last
conjunct. -/
theorem lookup_error_amended (path : List String) (o : SourceFile)
    (cf : CacheFile) (cksum : List Nat → List Nat)
    (filt : List Nat → Bool → TransformResult) (e : Nat)
    (hpath : path.any (fun part => pyStartsWithDot part) = false)
    (hsize : o.size ≤ 0xFFFFFFFF)
    (hcklen : (cksum o.content).length ≤ 0xFFFF) :
    getEntry path none false cksum filt cf = (.keyError, cf, 0) ∧
    getEntry path (some o) true cksum filt cf = (.keyError, cf, 0) ∧
    (0 ≤ o.modified → o.modified < 1000000 * 18446744073709551616 →
      filt o.content true = .raised true e →
      getEntry path (some o) false cksum filt .absent =
        (.keyError, .entry (mkHeader o cksum) [], 1)) ∧
    (0 ≤ o.modified → o.modified < 1000000 * 18446744073709551616 →
      filt o.content true = .raised false e →
      getEntry path (some o) false cksum filt .absent =
        (.exc e, .absent, 1)) ∧
    (entrySetHeaderFails (mkHeader o cksum) = true →
      getEntry path (some o) false cksum filt .absent =
        (.pyExc .structError, .absent, 0)) := by
  have hvalid : ¬ (o.size > 0xFFFFFFFF ∨ (cksum o.content).length > 0xFFFF) := by
    omega
  refine ⟨?_, ?_, fun hts0 htsB hio => ?_, fun hts0 htsB hother => ?_,
    fun hsf => ?_⟩
  · simp [getEntry, hpath]
  · simp [getEntry, hpath]
  · have hw : entrySetHeaderFails (mkHeader o cksum) = false :=
      entrySetHeaderFails_false (mkHeader o cksum) hts0 htsB
    simp [getEntry, hpath, hvalid, runTransformer, hio, hw,
      entryParseRaisesTypeError]
  · have hw : entrySetHeaderFails (mkHeader o cksum) = false :=
      entrySetHeaderFails_false (mkHeader o cksum) hts0 htsB
    simp [getEntry, hpath, hvalid, runTransformer, hother, hw,
      entryParseRaisesTypeError]
  · simp [getEntry, hpath, hvalid, runTransformer, hsf,
      entryParseRaisesTypeError]

/-- Witness for `lookup_error_amended`: concrete path, source and
transformer exercising the missing-source, non-IOError and pre-epoch
struct.error branches. -/
theorem lookup_error_amended_witness :
    getEntry ["w.txt"] none false id (fun _ _ => .raised false 42)
      .inactive = (.keyError, .inactive, 0) ∧
    getEntry ["w.txt"] (some ⟨1, 0, [5]⟩) false id
      (fun _ _ => .raised false 42) .absent = (.exc 42, .absent, 1) ∧
    getEntry ["w.txt"] (some ⟨1, -1000000, [5]⟩) false id
      (fun _ _ => .raised false 42) .absent =
        (.pyExc .structError, .absent, 0) :=
  ⟨(lookup_error_amended ["w.txt"] ⟨1, 0, [5]⟩ .inactive id
      (fun _ _ => .raised false 42) 42 (by decide) (by decide) (by decide)).1,
   (lookup_error_amended ["w.txt"] ⟨1, 0, [5]⟩ .absent id
      (fun _ _ => .raised false 42) 42 (by decide) (by decide)
      (by decide)).2.2.2.1 (by decide) (by decide) rfl,
   (lookup_error_amended ["w.txt"] ⟨1, -1000000, [5]⟩ .absent id
      (fun _ _ => .raised false 42) 42 (by decide) (by decide)
      (by decide)).2.2.2.2 (by decide)⟩

/-! ## C4: scrub LRU bound (cache.py lines 415-432)

Entries surviving the existence/age sweep are `(name, mtime)` pairs.
When `max_entries` is set and the count is AT LEAST `max_entries`, the
source sorts them by mtime ascending, then pops and deletes from the
front while `ecount > 0 and ecount >= max_entries` (each file's mtime is
re-checked under its exclusive lock; with no concurrent modification the
check always passes, which is the single-threaded semantics modelled
here).
-/

/-- Insert an entry into an mtime-sorted list (ascending). -/
def insertByTime (x : String × Int) : List (String × Int) → List (String × Int)
  | [] => [x]
  | y :: ys => if x.2 ≤ y.2 then x :: y :: ys else y :: insertByTime x ys

/-- Sort entries by mtime ascending, as `sorted(entries, key = mtime)`. -/
def sortByTime : List (String × Int) → List (String × Int)
  | [] => []
  | x :: xs => insertByTime x (sortByTime xs)

/-- The drain loop (cache.py lines 421-432): pop and delete the oldest
entry while the remaining count is positive and still at least `m`. -/
def drainLRU (m : Nat) : List (String × Int) → List (String × Int)
  | [] => []
  | x :: xs => if xs.length + 1 ≥ m then drainLRU m xs else x :: xs

/-- The LRU phase of `Cache.scrub` (cache.py lines 415-432), applied to
the kept entries: nothing happens when `max_entries` is null or the
count is below it; otherwise the sorted list is drained. -/
def scrubEntries (maxEntries : Option Nat) (entries : List (String × Int)) :
    List (String × Int) :=
  match maxEntries with
  | none => entries
  | some m =>
      if entries.length ≥ m then drainLRU m (sortByTime entries) else entries

/-- The six cache entries of the LRU scenario: `1.txt` ... `6.txt`
looked up in order with strictly increasing access times. -/
def lruSixEntries : List (String × Int) :=
  [("1.txt", 1), ("2.txt", 2), ("3.txt", 3),
   ("4.txt", 4), ("5.txt", 5), ("6.txt", 6)]

theorem drainLRU_eq_drop (m : Nat) (l : List (String × Int)) :
    drainLRU m l = l.drop (l.length + 1 - m) := by
  induction l with
  | nil => simp [drainLRU]
  | cons x xs ih =>
    by_cases hge : xs.length + 1 ≥ m
    · rw [drainLRU, if_pos hge, ih]
      have : (x :: xs).length + 1 - m = (xs.length + 1 - m) + 1 := by
        simp [List.length_cons]
        omega
      rw [this]
      rfl
    · rw [drainLRU, if_neg hge]
      have : (x :: xs).length + 1 - m = 0 := by
        simp [List.length_cons]
        omega
      rw [this]
      rfl

theorem insertByTime_min (x : String × Int) (l : List (String × Int))
    (hx : ∀ y ∈ l, x.2 ≤ y.2) : insertByTime x l = x :: l := by
  cases l with
  | nil => rfl
  | cons y ys =>
    rw [insertByTime, if_pos (hx y (by simp))]

theorem sortByTime_of_sorted (l : List (String × Int))
    (hl : l.Pairwise (fun a b => a.2 ≤ b.2)) : sortByTime l = l := by
  induction l with
  | nil => rfl
  | cons x xs ih =>
    rw [List.pairwise_cons] at hl
    rw [sortByTime, ih hl.2, insertByTime_min x xs hl.1]

/-- C4 counterexample: with `max_entries = 5` and the six entries
`1.txt` ... `6.txt` in increasing mtime order, `scrub()` does NOT leave
exactly 5 entries: the drain loop keeps deleting while the count is
still AT LEAST `max_entries`, so it removes `1.txt` AND `2.txt` and
leaves only 4 entries. -/
theorem scrub_lru_not_five :
    scrubEntries (some 5) lruSixEntries =
      [("3.txt", 3), ("4.txt", 4), ("5.txt", 5), ("6.txt", 6)] ∧
    (scrubEntries (some 5) lruSixEntries).length ≠ 5 ∧
    ("2.txt", (2 : Int)) ∉ scrubEntries (some 5) lruSixEntries := by
  refine ⟨by decide, by decide, by decide⟩

/-- C4 (amended): when the kept entries (sorted here by increasing
mtime) number at least `max_entries`, `scrub()` drains the oldest
entries until STRICTLY FEWER than `max_entries` remain: it evicts the
`n + 1 - max_entries` oldest by mtime and leaves exactly
`max_entries - 1` entries, the newest ones.  In the six-entry scenario
with `max_entries = 5` this leaves the 4 entries `3.txt` ... `6.txt`:
`1.txt` and `2.txt` are evicted and `6.txt` is present.  (When the count
is below `max_entries`, nothing is evicted.) -/
theorem scrub_lru_amended (m : Nat) (l : List (String × Int))
    (hsorted : l.Pairwise (fun a b => a.2 ≤ b.2)) :
    (l.length ≥ m →
      scrubEntries (some m) l = l.drop (l.length + 1 - m) ∧
      (1 ≤ m → (scrubEntries (some m) l).length = m - 1)) ∧
    (l.length < m → scrubEntries (some m) l = l) ∧
    scrubEntries (some 5) lruSixEntries =
      [("3.txt", 3), ("4.txt", 4), ("5.txt", 5), ("6.txt", 6)] := by
  refine ⟨fun hge => ?_, fun hlt => ?_, by decide⟩
  · have heq : scrubEntries (some m) l = l.drop (l.length + 1 - m) := by
      rw [scrubEntries, if_pos hge, sortByTime_of_sorted l hsorted,
        drainLRU_eq_drop]
    refine ⟨heq, fun hm => ?_⟩
    rw [heq, List.length_drop]
    omega
  · rw [scrubEntries, if_neg (by omega)]

/-- Witness for `scrub_lru_amended` at the six-entry scenario. -/
theorem scrub_lru_amended_witness :
    scrubEntries (some 5) lruSixEntries =
      lruSixEntries.drop (lruSixEntries.length + 1 - 5) ∧
    (scrubEntries (some 5) lruSixEntries).length = 5 - 1 :=
  ⟨((scrub_lru_amended 5 lruSixEntries (by decide)).1 (by decide)).1,
   ((scrub_lru_amended 5 lruSixEntries (by decide)).1 (by decide)).2 (by decide)⟩

/-! ## C6: SearchCache hit condition (search.py lines 128-173)

The state for one filter key is the stored pair (value, date-key
timestamp), or `none` when the key is absent.  `BaseSearchCache.__call__`
raises `ValueError` (and falls through to a re-scan) when
`mtime is None or entry_timestamp < mtime`; the stored value is returned
only in the remaining case.  In this single-threaded model the
`other_updated` reconciliation after the scan always stores (the stored
date-key timestamp cannot exceed itself), so the scan result is written
back with the post-scan wall-clock time `now`. -/
def searchQuery (mtime : Option Int) (now : Int) (scanResult : List Nat)
    (stored : Option (List Nat × Int)) :
    List Nat × Option (List Nat × Int) × Nat :=
  match stored with
  | some (v, ts) =>
    match mtime with
    | none => (scanResult, some (scanResult, now), 1)
    | some m =>
      if ts < m then (scanResult, some (scanResult, now), 1)
      else (v, some (v, now), 0)
  | none => (scanResult, some (scanResult, now), 1)

/-- C6 counterexample: with a stored entry and a NULL source-tree mtime,
`query` does NOT return the stored value without re-scanning; it
invokes the scan (count 1) and returns the fresh scan result, because
the source treats `mtime is None` as "no files left" and raises
`ValueError` into the re-scan path (search.py lines 143-146).  (The
repository's own test `test_miss_hit_invalid_mtime` asserts this
behaviour.) -/
theorem search_null_mtime_rescans :
    searchQuery none 100 [2] (some ([1], 5)) = ([2], some ([2], 100), 1) ∧
    (searchQuery none 100 [2] (some ([1], 5))).2.2 ≠ 0 ∧
    (searchQuery none 100 [2] (some ([1], 5))).1 ≠ [1] := by
  refine ⟨rfl, by decide, by decide⟩

/-- C6 (amended): a stored filter result is returned without re-scanning
exactly when the stored date-key timestamp exists, the source-tree mtime
is NON-null, and the stored timestamp is at least the mtime (the date
key is then touched to now); when the mtime is null the entry is treated
as stale, the scan runs again, and its result replaces the stored value. -/
theorem search_hit_amended (v scanResult : List Nat) (ts m now : Int) :
    (m ≤ ts →
      searchQuery (some m) now scanResult (some (v, ts)) =
        (v, some (v, now), 0)) ∧
    (ts < m →
      searchQuery (some m) now scanResult (some (v, ts)) =
        (scanResult, some (scanResult, now), 1)) ∧
    searchQuery none now scanResult (some (v, ts)) =
      (scanResult, some (scanResult, now), 1) ∧
    searchQuery (some m) now scanResult none =
      (scanResult, some (scanResult, now), 1) := by
  refine ⟨fun hle => ?_, fun hlt => ?_, rfl, rfl⟩
  · rw [searchQuery]
    simp [Int.not_lt.mpr hle]
  · rw [searchQuery]
    simp [hlt]

/-- Witness for `search_hit_amended`: a fresh stored entry is served
without a scan; a null mtime forces the re-scan. -/
theorem search_hit_amended_witness :
    searchQuery (some 3) 50 [8] (some ([4], 7)) = ([4], some ([4], 50), 0) ∧
    searchQuery none 50 [8] (some ([4], 7)) = ([8], some ([8], 50), 1) :=
  ⟨(search_hit_amended [4] [8] 7 3 50).1 (by decide),
   (search_hit_amended [4] [8] 7 3 50).2.2.1⟩

/-! ## C7: Server.process extension dispatch (server.py lines 151-159)

The `processors` dict maps extensions (and the `None` key for the
default) to transformers; it is modelled as an association list in dict
iteration (= insertion) order, with transformers named by `Nat` ids.
`process` iterates `self.processors.items()`, skips the `None` key, and
RETURNS ON THE FIRST extension that is a suffix of the file name; when
the loop finishes without a match the default processor is used. -/
def dispatchExt (procs : List (Option String × Nat)) (fname : String) :
    Option Nat :=
  match procs with
  | [] => none
  | (none, _) :: rest => dispatchExt rest fname
  | (some ext, p) :: rest =>
    if pyEndsWith fname ext then some p else dispatchExt rest fname

/-- The default transformer `self.processors[None]` (first binding of
the `None` key). -/
def defaultProc (procs : List (Option String × Nat)) : Option Nat :=
  match procs with
  | [] => none
  | (none, p) :: _ => some p
  | (some _, _) :: rest => defaultProc rest

/-- Embedding of `Server.process` routing (server.py lines 151-159):
first matching extension in iteration order, else the default. -/
def serverProcess (procs : List (Option String × Nat)) (fname : String) :
    Option Nat :=
  match dispatchExt procs fname with
  | some p => some p
  | none => defaultProc procs

/-- Modelled from the spec: dispatch to the transformer whose extension
is the LONGEST suffix of the file name among all matching extensions
(the routing rule the claim asserts), falling through to the default
when none matches.  This is the comparison definition for the
refinement claim, not a translation of the source. -/
def dispatchLongestSpec (procs : List (Option String × Nat)) (fname : String) :
    Option Nat :=
  match (procs.filterMap (fun x =>
      match x with
      | (some ext, p) => if pyEndsWith fname ext then some (ext, p) else none
      | (none, _) => none)).foldl
      (fun best c =>
        match best with
        | none => some c
        | some b => if c.1.length > b.1.length then some c else best) none with
  | some b => some b.2
  | none => defaultProc procs

/-- The example mapping: extension `txt` before the longer extension
`a.txt`, plus a default transformer. -/
def exampleProcs : List (Option String × Nat) :=
  [(some "txt", 1), (some "a.txt", 2), (none, 0)]

/-- C7 counterexample: for a file name matched by both `txt` and the
longer `a.txt`, `Server.process` dispatches to the FIRST matching
extension in mapping order (`txt`, transformer 1), not to the
longest-suffix match (`a.txt`, transformer 2), so the claimed
longest-suffix routing is false. -/
theorem process_not_longest_match :
    serverProcess exampleProcs "ba.txt" = some 1 ∧
    dispatchLongestSpec exampleProcs "ba.txt" = some 2 ∧
    serverProcess exampleProcs "ba.txt" ≠
      dispatchLongestSpec exampleProcs "ba.txt" := by
  refine ⟨by decide, by decide, by decide⟩

/-- C7 (amended): `Server.process` dispatches to the transformer of the
FIRST extension, in mapping iteration order, that is a suffix of the
file name (any earlier non-default entries do not match), and falls
through to the default transformer when no extension matches. -/
theorem process_first_match (pre rest : List (Option String × Nat))
    (ext : String) (p : Nat) (fname : String)
    (hpre : ∀ q ∈ pre, ∀ e, q.1 = some e → pyEndsWith fname e = false)
    (hm : pyEndsWith fname ext = true) :
    serverProcess (pre ++ (some ext, p) :: rest) fname = some p ∧
    (∀ (g : String) (procs : List (Option String × Nat)),
      (∀ q ∈ procs, ∀ e, q.1 = some e → pyEndsWith g e = false) →
      serverProcess procs g = defaultProc procs) := by
  constructor
  · have hd : dispatchExt (pre ++ (some ext, p) :: rest) fname = some p := by
      induction pre with
      | nil => simp [dispatchExt, hm]
      | cons q qs ih =>
        have hq : ∀ e, q.1 = some e → pyEndsWith fname e = false :=
          fun e he => hpre q (by simp) e he
        have hqs : ∀ q' ∈ qs, ∀ e, q'.1 = some e → pyEndsWith fname e = false :=
          fun q' hq' e he => hpre q' (by simp [hq']) e he
        obtain ⟨e?, pid⟩ := q
        cases e? with
        | none => simpa [dispatchExt] using ih hqs
        | some e =>
          rw [List.cons_append, dispatchExt, if_neg ?_]
          · exact ih hqs
          · rw [hq e rfl]
            simp
    rw [serverProcess, hd]
  · intro g procs hnone
    have hd : dispatchExt procs g = none := by
      induction procs with
      | nil => rfl
      | cons q qs ih =>
        have hq : ∀ e, q.1 = some e → pyEndsWith g e = false :=
          fun e he => hnone q (by simp) e he
        have hqs : ∀ q' ∈ qs, ∀ e, q'.1 = some e → pyEndsWith g e = false :=
          fun q' hq' e he => hnone q' (by simp [hq']) e he
        obtain ⟨e?, pid⟩ := q
        cases e? with
        | none => simpa [dispatchExt] using ih hqs
        | some e =>
          rw [dispatchExt, if_neg ?_]
          · exact ih hqs
          · rw [hq e rfl]
            simp
    rw [serverProcess, hd]

/-- Witness for `process_first_match`: the `md` transformer is chosen
for `x.md` past a non-matching `txt` entry, and a name matching nothing
falls through to the default. -/
theorem process_first_match_witness :
    serverProcess ([(some "txt", 1)] ++ (some "md", 3) :: [(none, 0)]) "x.md" =
      some 3 ∧
    serverProcess [(some "txt", 1), (some "md", 3), (none, 0)] "y.png" =
      defaultProc [(some "txt", 1), (some "md", 3), (none, 0)] :=
  ⟨(process_first_match [(some "txt", 1)] [(none, 0)] "md" 3 "x.md"
      (by decide) (by decide)).1,
   (process_first_match [(some "txt", 1)] [(none, 0)] "md" 3 "x.md"
      (by decide) (by decide)).2 "y.png"
     [(some "txt", 1), (some "md", 3), (none, 0)] (by decide)⟩

/-! ## C8: scrub's rmdir NameError (cache.py lines 10-18 and 435-440)

Directory paths are modelled as lists of path components (the result of
splitting on `os.path.sep`).  `Cache.find_dirs` yields every walked
directory other than the root whose components are all non-dot.  The
empty-subdirectory removal loop calls the bare name `rmdir`, which
Python resolves against the function locals (none bind it), the module
globals of cache.py, and the builtins; `rmdir` is not a Python builtin. -/

/-- Every name bound at module level in cache.py: the names brought in
by the imports of lines 2-18 (sys; struct; datetime, timedelta; utc;
filestuff, worker, common; fcntl, os, stat, itertools; fstat, mkdir,
fchmod, chmod, utime, remove; path_join, isdir, isfile, normpath,
dirname, relpath; print_exc; namedtuple; Queue, Empty; logging; Lock;
copyfileobj), the module constant `LOGGER` and the top-level
definitions. -/
def cacheModuleNames : List String :=
  ["sys", "struct", "datetime", "timedelta", "utc", "filestuff", "worker",
   "common", "fcntl", "os", "stat", "itertools",
   "fstat", "mkdir", "fchmod", "chmod", "utime", "remove",
   "path_join", "isdir", "isfile", "normpath", "dirname", "relpath",
   "print_exc", "namedtuple", "Queue", "Empty", "logging", "Lock",
   "copyfileobj", "LOGGER", "timestamps_equivalent", "EntryHeader",
   "EntryWrapper", "Entry", "FileLock", "NoCache", "AutoProcess",
   "Cache", "DispatcherCache"]

/-- Name resolution for the bare `rmdir(dname)` call inside
`Cache.scrub`: no local binding exists, so the name resolves iff it is a
module global (it is not a Python builtin either). -/
def resolvesInScrub (n : String) : Bool := cacheModuleNames.contains n

/-- Embedding of `Cache.find_dirs` (cache.py lines 220-228) on the list
of walked directory paths: every directory except the root itself whose
path has no dot-prefixed component. -/
def findDirs (root : List String) (walkDirs : List (List String)) :
    List (List String) :=
  walkDirs.filter (fun p =>
    (p != root) && !(p.any (fun d => pyStartsWithDot d)))

/-- Embedding of the directory-removal loop at the end of `Cache.scrub`
(cache.py lines 435-443): for each directory yielded by `find_dirs` it
evaluates `rmdir(dname)`; an unresolvable name raises `NameError`, which
the surrounding handler (catching only `OSError`) does not catch, so the
loop aborts; otherwise the `OSError` of a non-empty directory is caught
and the loop continues, after which scrub stores the entry count and
returns `True`. -/
def scrubRmdirPhase (dirs : List (List String)) : Except PyErr Bool :=
  match dirs with
  | [] => .ok true
  | _ :: rest =>
    if resolvesInScrub "rmdir" then scrubRmdirPhase rest
    else .error .nameError

/-- C8: whenever the cache root contains at least one non-dot-prefixed
subdirectory (so `find_dirs` yields something), `scrub()` raises an
unhandled `NameError` at the `rmdir` call — cache.py never brings the
name `rmdir` in and the handler only catches `OSError` — so scrub
does not complete and never returns `True` in that case. -/
theorem scrub_rmdir_name_error (root : List String)
    (walkDirs : List (List String)) (p : List String)
    (hp : p ∈ walkDirs) (hne : p ≠ root)
    (hdot : p.any (fun d => pyStartsWithDot d) = false) :
    scrubRmdirPhase (findDirs root walkDirs) = .error .nameError ∧
    resolvesInScrub "rmdir" = false ∧
    ∀ b, scrubRmdirPhase (findDirs root walkDirs) ≠ .ok b := by
  have hrm : resolvesInScrub "rmdir" = false := by decide
  have hmem : p ∈ findDirs root walkDirs := by
    rw [findDirs, List.mem_filter]
    refine ⟨hp, ?_⟩
    simp [hne, hdot]
  have herr : scrubRmdirPhase (findDirs root walkDirs) = .error .nameError := by
    cases hl : findDirs root walkDirs with
    | nil => rw [hl] at hmem; cases hmem
    | cons d rest =>
      rw [scrubRmdirPhase, hrm]
      simp
  exact ⟨herr, hrm, fun b => by rw [herr]; simp⟩

/-- Witness for `scrub_rmdir_name_error`: a cache root with one ordinary
subdirectory. -/
theorem scrub_rmdir_name_error_witness :
    scrubRmdirPhase (findDirs ["", "cache"]
      [["", "cache", "sub"]]) = .error .nameError :=
  (scrub_rmdir_name_error ["", "cache"] [["", "cache", "sub"]]
    ["", "cache", "sub"] (by decide) (by decide) (by decide)).1
